import Mathlib

/-!
Verification development for the Freedom24 GNOME Shell extension's
connection supervisor (`TradenetWebSocket`), price database
(`TickerDatabase`) and market clock.

The TypeScript source is embedded shallowly: instance fields become a
`WSState` record, each method becomes a pure function from state to
state paired with a list of observable `Effect`s (frames sent, timers
scheduled, cache writes, observer notifications), and the GLib timers
become boolean "armed" flags whose firing is an explicit `Event`.
Numbers carried by the wire protocol are modelled as rationals.
-/

namespace Freedom24

/-- Trading-session phase, as reported by `getMarketState`. -/
inductive MarketState
  | «open»
  | closed
  | pre
  | post
deriving DecidableEq, Repr

/-- `getMarketState` from the source, as a function of local weekday
(0 = Sunday), hour and minute instead of the ambient wall clock. -/
def getMarketState (day h m : Nat) : MarketState :=
  if day = 0 ∨ day = 6 then .closed
  else if h < 10 then .closed
  else if h < 15 ∨ (h = 15 ∧ m < 30) then .pre
  else if h < 22 then .«open»
  else .post

/-- Result of the credential exchange (`AuthResult` in the source).
Absent JSON fields are `none`. -/
structure AuthResult where
  SID : Option String
  error : Option String
deriving DecidableEq, Repr

/-- Payload of an inbound `q` (quote) frame; absent fields are `none`. -/
structure QuotePayload where
  c : Option String
  ltp : Option Rat
  bbp : Option Rat
  contract_multiplier : Option Rat
deriving DecidableEq, Repr

/-- One raw entry of an inbound `portfolio` frame's `pos` list. -/
structure RawPosition where
  i : Option String
  base_contract_code : Option String
  price_a : Option Rat
  face_val_a : Option Rat
  q : Option Rat
  maturity_d : Option String
  mkt_price : Option Rat
  close_price : Option Rat
  contract_multiplier : Option Rat
deriving DecidableEq, Repr

/-- `PortfolioPosition` from the source. -/
structure PortfolioPosition where
  instrument : String
  baseContractCode : String
  priceA : Rat
  faceValA : Rat
  quantity : Rat
  maturity : String
  marketPrice : Option Rat
  closePrice : Option Rat
  contractMultiplier : Option Rat
deriving DecidableEq, Repr

/-- Decoded inbound frame: the `[type, payload]` pairs recognised by
`handleMessage`; anything else (malformed JSON included) is
`unrecognized` and dropped. -/
inductive Msg
  | userData (mode : String)
  | quote (p : QuotePayload)
  | portfolio (pos : Option (List RawPosition))
  | unrecognized
deriving DecidableEq, Repr

/-- Observable side effects of the supervisor. -/
inductive Effect
  | scheduleDelay (ms : Int)
  | closeSocket
  | connectWith (sid : String)
  | sendFrame (frame : List String)
  | savePrice (symbol : String) (price : Rat) (isRealtime : Bool)
  | notifyPrice (symbol : String) (price : Rat)
  | notifyConnectionState (isConnected : Bool)
  | notifyPortfolio (tickers : List String)
deriving DecidableEq, Repr

/-- The mutable instance fields of `TradenetWebSocket` that the
supervisor's logic reads or writes.  Timers are modelled by "armed"
flags; `connectionOpen` models `this.connection` being a live socket
(non-null and in the OPEN state, with its closed signal not yet
delivered). -/
structure WSState where
  adminSID : Option String
  desiredSubscriptions : List String
  isIntentionallyDisconnected : Bool
  reconnectTimerArmed : Bool
  reconnectAttempts : Int
  isAuthenticated : Bool
  periodicResubscribeArmed : Bool
  resendConfirmArmed : Bool
  waitingForResendResponse : Bool
  connectionOpen : Bool
  portfolioTickers : List String
  portfolioPositions : List PortfolioPosition
deriving DecidableEq, Repr

/-- Field initialiser `maxReconnectAttempts = 5`. -/
def maxReconnectAttempts : Int := 5

/-- Field initialiser `baseReconnectDelay = 1000` (milliseconds). -/
def baseReconnectDelay : Int := 1000

/-- The freshly constructed instance (all field initialisers). -/
def initState : WSState where
  adminSID := none
  desiredSubscriptions := []
  isIntentionallyDisconnected := false
  reconnectTimerArmed := false
  reconnectAttempts := 0
  isAuthenticated := false
  periodicResubscribeArmed := false
  resendConfirmArmed := false
  waitingForResendResponse := false
  connectionOpen := false
  portfolioTickers := []
  portfolioPositions := []

/-- JavaScript string truthiness for an optional string field:
present and non-empty. -/
def strTruthy : Option String → Bool
  | some s => s ≠ ""
  | none => false

/-- `isConnectedInstance`: socket live and session authenticated. -/
def isConnectedInstance (s : WSState) : Bool :=
  s.connectionOpen && s.isAuthenticated

/-- Local `hasBbp` of the quote branch of `handleMessage`:
`typeof bbp === "number" && bbp > 0`. -/
def hasBbp (qp : QuotePayload) : Bool :=
  match qp.bbp with
  | some b => decide (0 < b)
  | none => false

/-- Local `hasLtp` of the quote branch: `typeof ltp === "number"`. -/
def hasLtp (qp : QuotePayload) : Bool :=
  qp.ltp.isSome

/-- Local `isOption` of the quote branch: `ticker.startsWith("+")`,
i.e. the symbol's first character is the option marker `+`. -/
def isOptionTicker (ticker : String) : Bool :=
  ticker.data.head? == some '+'

/-- Local `multiplier` of the quote branch: option-marker symbols use
`contract_multiplier ?? 100`, all others use 1. -/
def multiplierFor (ticker : String) (cm : Option Rat) : Rat :=
  if isOptionTicker ticker then cm.getD 100 else 1

/-- Local `selectedRawPrice` of the quote branch: prefer a positive
`bbp`; otherwise use `ltp` only while the market state is `open`. -/
def selectedRawPrice (mkt : MarketState) (qp : QuotePayload) : Option Rat :=
  if hasBbp qp then qp.bbp
  else if hasLtp qp && decide (mkt = MarketState.«open») then qp.ltp
  else none

/-- The pricing decision of the quote branch of `handleMessage`: the
`(ticker, price)` pair persisted and delivered, or `none` when the
frame is ignored for pricing (no truthy symbol, no usable raw price,
or non-positive final price). -/
def quotePricing (mkt : MarketState) (qp : QuotePayload) : Option (String × Rat) :=
  match qp.c with
  | some ticker =>
    if ticker ≠ "" ∧ (hasBbp qp || hasLtp qp) = true then
      let multiplier := multiplierFor ticker qp.contract_multiplier
      match selectedRawPrice mkt qp with
      | some raw =>
        let price := raw * multiplier
        if 0 < price then some (ticker, price) else none
      | none => none
    else none
  | none => none

/-- First-occurrence deduplication, the semantics of
`Array.from(new Set(tickers))`. -/
def dedupFirst (l : List String) : List String :=
  l.foldl (fun acc x => if x ∈ acc then acc else acc ++ [x]) []

/-- `scheduleReconnection`: below the attempt cap, arm (replacing any
pending one) a single reconnect timer with delay
`baseReconnectDelay * 2 ^ attempts` and increment the counter; at or
above the cap, do nothing.  The second component is the delay passed
to `GLib.timeout_add`, when a timer was armed. -/
def scheduleReconnection (s : WSState) : WSState × Option Int :=
  if maxReconnectAttempts ≤ s.reconnectAttempts then (s, none)
  else
    let delay := baseReconnectDelay * 2 ^ s.reconnectAttempts.toNat
    ({ s with reconnectAttempts := s.reconnectAttempts + 1,
              reconnectTimerArmed := true }, some delay)

/-- The `closed` signal handler installed by `setupHandlers`: drop
authentication, clear the periodic-resubscribe and resend-confirm
timers, notify observers, and schedule a backoff reconnect unless the
disconnect was intentional or no session token is held. -/
def onClosed (s : WSState) : WSState × List Effect :=
  let s1 := { s with isAuthenticated := false,
                     periodicResubscribeArmed := false,
                     resendConfirmArmed := false,
                     waitingForResendResponse := false,
                     connectionOpen := false }
  if !s1.isIntentionallyDisconnected && s1.adminSID.isSome then
    let (s2, d) := scheduleReconnection s1
    (s2, Effect.notifyConnectionState false ::
          (match d with
           | some ms => [Effect.scheduleDelay ms]
           | none => []))
  else (s1, [Effect.notifyConnectionState false])

/-- `this.connection.close(...)` on a live socket: emit the close and
run the `closed` handler (the single-threaded reactor delivers it
before anything else observes the socket); a no-op otherwise. -/
def closeConnection (s : WSState) : WSState × List Effect :=
  if s.connectionOpen then
    let (s1, effs) := onClosed s
    (s1, Effect.closeSocket :: effs)
  else (s, [])

/-- `sendQuotes`: when connected-and-authenticated and the list is
non-empty, send one `["quotes", ...]` frame and arm the resend-confirm
watchdog (`startResendConfirm`). -/
def sendQuotes (s : WSState) (subs : List String) : WSState × List Effect :=
  if !isConnectedInstance s then (s, [])
  else if subs.isEmpty then (s, [])
  else
    ({ s with resendConfirmArmed := true, waitingForResendResponse := true },
     [Effect.sendFrame ("quotes" :: subs)])

/-- `requestPortfolio`: send `["portfolio"]` when connected. -/
def requestPortfolio (s : WSState) : List Effect :=
  if isConnectedInstance s then [Effect.sendFrame ["portfolio"]] else []

/-- Map one raw portfolio entry into a `PortfolioPosition`
(the `.map` body of the portfolio branch of `handleMessage`). -/
def mapPosition (p : RawPosition) : PortfolioPosition where
  instrument := p.i.getD ""
  baseContractCode := p.base_contract_code.getD ""
  priceA := p.price_a.getD 0
  faceValA := p.face_val_a.getD 0
  quantity := p.q.getD 0
  maturity := p.maturity_d.getD ""
  marketPrice := p.mkt_price
  closePrice := p.close_price
  contractMultiplier := p.contract_multiplier

/-- `handleMessage`: dispatch one decoded inbound frame. -/
def handleMessage (mkt : MarketState) (s : WSState) (m : Msg) :
    WSState × List Effect :=
  match m with
  | .userData mode =>
    if mode = "prod" then
      let s1 := { s with reconnectAttempts := 0, isAuthenticated := true }
      let (s2, e2) := sendQuotes s1 s1.desiredSubscriptions
      let s3 := { s2 with periodicResubscribeArmed := true }
      (s3, Effect.notifyConnectionState true :: (e2 ++ requestPortfolio s3))
    else (s, [])
  | .quote qp =>
    let s1 := { s with resendConfirmArmed := false,
                       waitingForResendResponse := false }
    let (s2, e1) :=
      if !s1.isAuthenticated then
        ({ s1 with isAuthenticated := true },
         [Effect.notifyConnectionState true])
      else (s1, [])
    match quotePricing mkt qp with
    | some (ticker, price) =>
      (s2, e1 ++ [Effect.savePrice ticker price true,
                  Effect.notifyPrice ticker price])
    | none => (s2, e1)
  | .portfolio pos =>
    let positionsRaw := pos.getD []
    let tickers := positionsRaw.filterMap fun p =>
      match p.i with
      | some v => if v ≠ "" then some v else none
      | none => none
    let uniqueTickers := dedupFirst tickers
    let positions :=
      (positionsRaw.map mapPosition).filter fun p => p.instrument ≠ ""
    ({ s with portfolioTickers := uniqueTickers,
              portfolioPositions := positions },
     [Effect.notifyPortfolio uniqueTickers])
  | .unrecognized => (s, [])

/-- The synchronous head of `connectInstance(sid)`: store the token,
clear the intentional-disconnect flag, and start the asynchronous
websocket connect. -/
def connectInstanceStart (s : WSState) (sid : String) : WSState × List Effect :=
  ({ s with adminSID := some sid, isIntentionallyDisconnected := false },
   [Effect.connectWith sid])

/-- `forceReconnectNow`: with a held token, transiently set the
intentional flag, close the socket (suppressing the close handler's
backoff), reset authentication, clear both timers, clear the flag and
immediately reconnect with the held token. -/
def forceReconnectNow (s : WSState) : WSState × List Effect :=
  match s.adminSID with
  | none => (s, [])
  | some sid =>
    let s1 := { s with isIntentionallyDisconnected := true }
    let (s2, e1) := closeConnection s1
    let s3 := { s2 with isAuthenticated := false,
                        periodicResubscribeArmed := false,
                        resendConfirmArmed := false,
                        waitingForResendResponse := false,
                        isIntentionallyDisconnected := false }
    let (s4, e2) := connectInstanceStart s3 sid
    (s4, e1 ++ e2)

/-- The resend-confirm (liveness watchdog) timer callback: if still
waiting for a quote, force-cycle the connection; the single-shot
timer is removed either way. -/
def resendConfirmFire (s : WSState) : WSState × List Effect :=
  if s.waitingForResendResponse then
    let (s1, effs) := forceReconnectNow s
    ({ s1 with resendConfirmArmed := false }, effs)
  else ({ s with resendConfirmArmed := false }, [])

/-- The reconnect timer callback: single-shot; reconnect with the held
token unless disconnected intentionally in the meantime. -/
def reconnectTimerFire (s : WSState) : WSState × List Effect :=
  let s1 := { s with reconnectTimerArmed := false }
  match s1.adminSID with
  | some sid =>
    if !s1.isIntentionallyDisconnected then connectInstanceStart s1 sid
    else (s1, [])
  | none => (s1, [])

/-- The periodic-resubscribe timer callback: re-send the desired set;
the recurring timer stays armed. -/
def periodicResubscribeFire (s : WSState) : WSState × List Effect :=
  sendQuotes s s.desiredSubscriptions

/-- `subscribeToTickers`: replace the desired set; resend at once when
authenticated. -/
def subscribeToTickers (s : WSState) (tickers : List String) :
    WSState × List Effect :=
  let s1 := { s with desiredSubscriptions := tickers }
  if s1.isAuthenticated then sendQuotes s1 s1.desiredSubscriptions
  else (s1, [])

/-- `disconnectInstance`: mark intentional, drop authentication, cancel
the reconnect timer, close the socket (whose handler clears the other
two timers), clear token, desired set and attempt counter. -/
def disconnectInstance (s : WSState) : WSState × List Effect :=
  let s1 := { s with isIntentionallyDisconnected := true,
                     isAuthenticated := false,
                     reconnectTimerArmed := false }
  let (s2, effs) := closeConnection s1
  ({ s2 with connectionOpen := false, adminSID := none,
             desiredSubscriptions := [], reconnectAttempts := 0 }, effs)

/-- `authenticateAndConnect`, given the credential exchange's result:
fail without side effects on an error or missing token, otherwise
start connecting with the received token. -/
def authenticateAndConnect (s : WSState) (a : AuthResult) :
    Bool × WSState × List Effect :=
  if strTruthy a.error || !strTruthy a.SID then (false, s, [])
  else
    match a.SID with
    | some sid =>
      let (s1, effs) := connectInstanceStart s sid
      (true, s1, effs)
    | none => (false, s, [])

/-- The distinct completions of `authenticateWithTradernet`: a parsed
JSON login response, or one of its three fixed local failures. -/
inductive ExchangeOutcome
  | response (SID : Option String) (error : Option String)
  | sessionNotInitialized
  | networkError
  | processingError
deriving DecidableEq, Repr

/-- The `AuthResult` that `authenticateWithTradernet` resolves with for
each completion: a truthy `SID` is passed through; otherwise the
response's truthy `error` (or `"Authentication failed"`); the local
failures resolve with their fixed error strings. -/
def exchangeResult : ExchangeOutcome → AuthResult
  | .response SID error =>
    if strTruthy SID then { SID := SID, error := none }
    else
      { SID := none,
        error := some (if strTruthy error then error.getD "" else "Authentication failed") }
  | .sessionNotInitialized =>
    { SID := none, error := some "Session not initialized" }
  | .networkError =>
    { SID := none, error := some "Network error during authentication" }
  | .processingError =>
    { SID := none, error := some "Error processing authentication response" }

/-- An event delivered to the single-threaded reactor: an inbound
frame, the remote peer closing the socket, one of the three timers
firing, or one of the public API calls that do not open a new
connection. -/
inductive Event
  | message (mkt : MarketState) (m : Msg)
  | remoteClosed
  | reconnectFire
  | watchdogFire
  | periodicFire
  | apiSubscribe (tickers : List String)
  | apiDisconnect
deriving DecidableEq, Repr

/-- One reactor step.  Inbound frames and the remote-close signal
require a live socket; each timer fires only while armed. -/
def step (s : WSState) (e : Event) : WSState × List Effect :=
  match e with
  | .message mkt m => if s.connectionOpen then handleMessage mkt s m else (s, [])
  | .remoteClosed => if s.connectionOpen then onClosed s else (s, [])
  | .reconnectFire => if s.reconnectTimerArmed then reconnectTimerFire s else (s, [])
  | .watchdogFire => if s.resendConfirmArmed then resendConfirmFire s else (s, [])
  | .periodicFire =>
    if s.periodicResubscribeArmed then periodicResubscribeFire s else (s, [])
  | .apiSubscribe tickers => subscribeToTickers s tickers
  | .apiDisconnect => disconnectInstance s

/-- `PriceTrend` from the database module. -/
inductive PriceTrend
  | up
  | down
  | same
deriving DecidableEq, Repr

/-- A `ticker_prices` row (`TickerData`); `previousPrice` is always
written by `savePriceUpdate`. -/
structure TickerData where
  symbol : String
  price : Rat
  previousPrice : Rat
  timestamp : Int
  isRealtime : Bool
  trend : PriceTrend
deriving DecidableEq, Repr

/-- `TickerDatabase.savePriceUpdate`: the row inserted (replacing any
previous row) for `symbol`, given the row `current` the preceding
`getLatestPrice(symbol)` returned and the wall-clock second `now`.
The previous price defaults to the new price when no row exists, and
the trend compares new against previous. -/
def savePriceUpdate (current : Option TickerData) (symbol : String)
    (price : Rat) (isRealtime : Bool) (now : Int) : TickerData :=
  let previousPrice := (current.map (fun d => d.price)).getD price
  let trend : PriceTrend :=
    if previousPrice < price then .up
    else if price < previousPrice then .down
    else .same
  { symbol := symbol, price := price, previousPrice := previousPrice,
    timestamp := now, isRealtime := isRealtime, trend := trend }

/-- The delays of `n` back-to-back `scheduleReconnection` calls (the
backoff trace of consecutive failed attempts), stopping at the cap. -/
def scheduleDelays : Nat → WSState → List Int
  | 0, _ => []
  | n + 1, s =>
    match scheduleReconnection s with
    | (s1, some d) => d :: scheduleDelays n s1
    | (_, none) => []

/-- A state from which the supervisor is inert: no token, no socket,
no authentication, and no armed timer. -/
def Quiescent (s : WSState) : Prop :=
  s.adminSID = none ∧ s.isAuthenticated = false ∧ s.connectionOpen = false ∧
  s.reconnectTimerArmed = false ∧ s.resendConfirmArmed = false ∧
  s.periodicResubscribeArmed = false

/-- The supervisor's reconnect-counter safety invariant. -/
def reconnectInv (s : WSState) : Prop :=
  0 ≤ s.reconnectAttempts ∧ s.reconnectAttempts ≤ maxReconnectAttempts

/-- Concrete state used as witness input for C1. -/
def sW1 : WSState := { initState with reconnectAttempts := 2 }

/-- Concrete state for the C1 counterexample: unauthenticated live
socket with three reconnect attempts consumed. -/
def sQuotePromo : WSState :=
  { initState with adminSID := some "S", connectionOpen := true,
                   reconnectAttempts := 3 }

/-- Quote payload carrying only a last-traded price. -/
def qOnlyLtp : QuotePayload :=
  { c := some "AAPL", ltp := some 100, bbp := none,
    contract_multiplier := none }

/-- Concrete witness state for C2: authenticated connection that sent
a subscribe and is waiting on the watchdog. -/
def sW2 : WSState :=
  { initState with adminSID := some "S", connectionOpen := true,
                   isAuthenticated := true, periodicResubscribeArmed := true,
                   resendConfirmArmed := true,
                   waitingForResendResponse := true, reconnectAttempts := 2 }

/-- Concrete witness state for C3: armed watchdog, pending reconnect
timer and armed periodic timer on a live socket. -/
def sW3 : WSState :=
  { initState with adminSID := some "S", connectionOpen := true,
                   isAuthenticated := true, reconnectTimerArmed := true,
                   resendConfirmArmed := true,
                   waitingForResendResponse := true,
                   periodicResubscribeArmed := true,
                   desiredSubscriptions := ["AAPL"] }

/-- Quote payload with a positive best-bid, used as witness input. -/
def qBbp : QuotePayload :=
  { c := some "AAPL", ltp := some 90, bbp := some 101,
    contract_multiplier := none }

/-- Option-symbol quote payload without `contract_multiplier`, used as
witness input. -/
def qOption : QuotePayload :=
  { c := some "+AAPL240C", ltp := none, bbp := some 2,
    contract_multiplier := none }

/-- Raw portfolio entry whose base contract code differs from its
instrument, used for the C7 counterexample. -/
def posBase : RawPosition :=
  { i := some "AAPL", base_contract_code := some "BASE",
    price_a := none, face_val_a := none, q := none, maturity_d := none,
    mkt_price := none, close_price := none, contract_multiplier := none }

section Lemmas

lemma mem_foldl_dedup (l : List String) (acc : List String) (a : String) :
    a ∈ l.foldl (fun acc x => if x ∈ acc then acc else acc ++ [x]) acc ↔
      a ∈ acc ∨ a ∈ l := by
  induction l generalizing acc with
  | nil => simp
  | cons x xs ih =>
    simp only [List.foldl_cons, ih, List.mem_cons]
    by_cases hx : x ∈ acc
    · simp only [if_pos hx]
      constructor
      · rintro (h | h)
        · exact Or.inl h
        · exact Or.inr (Or.inr h)
      · rintro (h | h | h)
        · exact Or.inl h
        · exact Or.inl (h ▸ hx)
        · exact Or.inr h
    · simp only [if_neg hx, List.mem_append, List.mem_singleton]
      tauto

lemma nodup_foldl_dedup (l : List String) (acc : List String)
    (h : acc.Nodup) :
    (l.foldl (fun acc x => if x ∈ acc then acc else acc ++ [x]) acc).Nodup := by
  induction l generalizing acc with
  | nil => simpa
  | cons x xs ih =>
    simp only [List.foldl_cons]
    by_cases hx : x ∈ acc
    · simpa [if_pos hx] using ih acc h
    · refine ih _ ?_
      simp only [if_neg hx]
      exact List.Nodup.append h (List.nodup_singleton x)
        (by simpa using fun hmem => hx hmem)

lemma mem_dedupFirst (l : List String) (a : String) :
    a ∈ dedupFirst l ↔ a ∈ l := by
  simpa [dedupFirst] using mem_foldl_dedup l [] a

lemma nodup_dedupFirst (l : List String) : (dedupFirst l).Nodup :=
  nodup_foldl_dedup l [] List.nodup_nil

lemma sendQuotes_fields (s : WSState) (subs : List String) :
    (sendQuotes s subs).1.reconnectAttempts = s.reconnectAttempts ∧
    (sendQuotes s subs).1.adminSID = s.adminSID ∧
    (sendQuotes s subs).1.isAuthenticated = s.isAuthenticated ∧
    (sendQuotes s subs).1.connectionOpen = s.connectionOpen ∧
    (sendQuotes s subs).1.reconnectTimerArmed = s.reconnectTimerArmed ∧
    (sendQuotes s subs).1.periodicResubscribeArmed = s.periodicResubscribeArmed := by
  unfold sendQuotes
  split <;> [skip; split] <;> simp

lemma sendQuotes_not_connected (s : WSState) (subs : List String)
    (h : isConnectedInstance s = false) : sendQuotes s subs = (s, []) := by
  simp [sendQuotes, h]

end Lemmas

/-- C1 (amended): consecutive unintentional disconnects schedule
delays `baseDelay * 2 ^ attempt`: below the cap `scheduleReconnection`
arms a timer with that delay and increments the counter, at the cap it
schedules nothing, and from zero attempts the trace of scheduled
delays is exactly 1000, 2000, 4000, 8000, 16000 ms; successful
authentication by a `userData` frame with mode `prod` resets the
counter to zero (a quote frame promoting the connection to
Authenticated does not). -/
theorem backoff_delays_and_auth_reset :
    (∀ s : WSState, 0 ≤ s.reconnectAttempts →
      s.reconnectAttempts < maxReconnectAttempts →
      scheduleReconnection s =
        ({ s with reconnectAttempts := s.reconnectAttempts + 1,
                  reconnectTimerArmed := true },
         some (baseReconnectDelay * 2 ^ s.reconnectAttempts.toNat))) ∧
    (∀ s : WSState, maxReconnectAttempts ≤ s.reconnectAttempts →
      scheduleReconnection s = (s, none)) ∧
    (∀ s : WSState, s.reconnectAttempts = 0 →
      scheduleDelays 6 s = [1000, 2000, 4000, 8000, 16000]) ∧
    (∀ (mkt : MarketState) (s : WSState),
      (handleMessage mkt s (.userData "prod")).1.reconnectAttempts = 0) := by
  refine ⟨?_, ?_, ?_, ?_⟩
  · intro s _ hlt
    rw [scheduleReconnection, if_neg (by omega)]
  · intro s hge
    rw [scheduleReconnection, if_pos hge]
  · intro s h0
    simp only [scheduleDelays, scheduleReconnection, maxReconnectAttempts,
      baseReconnectDelay, h0]
    norm_num
    decide
  · intro mkt s
    simp only [handleMessage, if_pos rfl]
    exact (sendQuotes_fields _ _).1

/-- Witness for C1: at two prior attempts the hypotheses hold and the
third delay is 4000 ms while the counter moves to 3. -/
theorem backoff_delays_and_auth_reset_witness :
    (0 ≤ sW1.reconnectAttempts ∧
     sW1.reconnectAttempts < maxReconnectAttempts ∧
     scheduleReconnection sW1 =
       ({ sW1 with reconnectAttempts := sW1.reconnectAttempts + 1,
                   reconnectTimerArmed := true },
        some (baseReconnectDelay * 2 ^ sW1.reconnectAttempts.toNat))) ∧
    (handleMessage .«open» sW1 (.userData "prod")).1.reconnectAttempts = 0 :=
  ⟨⟨by decide, by decide,
    backoff_delays_and_auth_reset.1 sW1 (by decide) (by decide)⟩,
   backoff_delays_and_auth_reset.2.2.2 .«open» sW1⟩

/-- C1 counterexample: a quote frame arriving while not authenticated
sets the connection to Authenticated yet leaves the reconnect counter
at 3 instead of resetting it to zero. -/
theorem quote_promotion_keeps_counter :
    (handleMessage .«open» sQuotePromo (.quote qOnlyLtp)).1.isAuthenticated = true ∧
    (handleMessage .«open» sQuotePromo (.quote qOnlyLtp)).1.reconnectAttempts = 3 := by
  constructor <;>
    simp [handleMessage, quotePricing, selectedRawPrice, hasBbp, hasLtp,
      multiplierFor, isOptionTicker, sQuotePromo, qOnlyLtp, initState]

/-- C8: the trend stored by `savePriceUpdate` is `up` exactly when the
new price strictly exceeds the previously cached price, `down` exactly
when it is strictly below, `same` otherwise; with no previously cached
row the previous price defaults to the new price, so the trend is
`same`. -/
theorem trend_computation (current : Option TickerData) (symbol : String)
    (price : Rat) (rt : Bool) (now : Int) :
    ((savePriceUpdate current symbol price rt now).trend = .up ↔
      (current.map fun d => d.price).getD price < price) ∧
    ((savePriceUpdate current symbol price rt now).trend = .down ↔
      price < (current.map fun d => d.price).getD price) ∧
    ((savePriceUpdate current symbol price rt now).trend = .same ↔
      price = (current.map fun d => d.price).getD price) ∧
    ((savePriceUpdate current symbol price rt now).previousPrice =
      (current.map fun d => d.price).getD price) ∧
    (savePriceUpdate none symbol price rt now).trend = .same := by
  have htrend : (savePriceUpdate current symbol price rt now).trend =
      (if (current.map fun d => d.price).getD price < price then PriceTrend.up
       else if price < (current.map fun d => d.price).getD price then PriceTrend.down
       else PriceTrend.same) := rfl
  set prev := (current.map fun d => d.price).getD price with hprev
  refine ⟨?_, ?_, ?_, rfl, by simp [savePriceUpdate]⟩
  · rw [htrend]
    rcases lt_trichotomy prev price with h | h | h
    · simp [h]
    · simp [h, lt_irrefl]
    · simp [h, asymm h]
  · rw [htrend]
    rcases lt_trichotomy prev price with h | h | h
    · simp [h, asymm h]
    · simp [h, lt_irrefl]
    · simp [h, asymm h]
  · rw [htrend]
    rcases lt_trichotomy prev price with h | h | h
    · simp [h, asymm h, h.ne']
    · simp [h, lt_irrefl]
    · simp [h, asymm h, h.ne]

lemma quiescent_step (s : WSState) (e : Event) (h : Quiescent s) :
    (step s e).2 = [] ∧ Quiescent (step s e).1 := by
  obtain ⟨h1, h2, h3, h4, h5, h6⟩ := h
  cases e <;>
    simp_all [step, Quiescent, subscribeToTickers, sendQuotes,
      isConnectedInstance, disconnectInstance, closeConnection,
      periodicResubscribeFire, reconnectTimerFire, resendConfirmFire,
      handleMessage, onClosed]

/-- C2: when the liveness watchdog fires while still waiting for a
quote after a subscribe send, with a session token held and a live
socket, exactly one force-cycle happens — the socket is closed,
authentication state is reset, the periodic-resubscribe and watchdog
timers are cleared, and one immediate reconnect with the held token is
issued — while the backoff-governed reconnect counter and reconnect
timer are untouched and the close it triggers schedules no backoff
delay. -/
theorem watchdog_force_cycle (s : WSState) (sid : String)
    (harm : s.resendConfirmArmed = true)
    (hwait : s.waitingForResendResponse = true)
    (hsid : s.adminSID = some sid)
    (hopen : s.connectionOpen = true) :
    step s .watchdogFire =
      ({ s with isAuthenticated := false,
                periodicResubscribeArmed := false,
                resendConfirmArmed := false,
                waitingForResendResponse := false,
                connectionOpen := false,
                isIntentionallyDisconnected := false },
       [Effect.closeSocket, Effect.notifyConnectionState false,
        Effect.connectWith sid]) ∧
    (step s .watchdogFire).1.reconnectAttempts = s.reconnectAttempts ∧
    (step s .watchdogFire).1.reconnectTimerArmed = s.reconnectTimerArmed ∧
    (∀ ms, Effect.scheduleDelay ms ∉ (step s .watchdogFire).2) := by
  obtain ⟨a, d, i, rt, ra, au, pa, rca, w, co, pt, pp⟩ := s
  simp only at harm hwait hsid hopen
  subst harm hwait hsid hopen
  refine ⟨?_, ?_, ?_, ?_⟩ <;>
    simp [step, resendConfirmFire, forceReconnectNow, closeConnection,
      onClosed, connectInstanceStart, scheduleReconnection]

/-- Witness for C2: the hypotheses hold of `sW2` and the watchdog
firing leaves its reconnect counter at 2 and schedules no delay. -/
theorem watchdog_force_cycle_witness :
    (sW2.resendConfirmArmed = true ∧ sW2.waitingForResendResponse = true ∧
     sW2.adminSID = some "S" ∧ sW2.connectionOpen = true) ∧
    (step sW2 .watchdogFire).1.reconnectAttempts = sW2.reconnectAttempts ∧
    (∀ ms, Effect.scheduleDelay ms ∉ (step sW2 .watchdogFire).2) :=
  ⟨⟨rfl, rfl, rfl, rfl⟩,
   (watchdog_force_cycle sW2 "S" rfl rfl rfl rfl).2.1,
   (watchdog_force_cycle sW2 "S" rfl rfl rfl rfl).2.2.2⟩

/-- C3: `disconnect()` in a state with a live socket (or with the
socket-owned watchdog and periodic timers already clear) cancels the
pending reconnect timer, the watchdog and the periodic-resubscribe
timer, closes the socket, clears the session token and the desired
subscription set, sends no frame and schedules nothing; the resulting
state is quiescent, and from any quiescent state every subsequent
event produces no effect at all (in particular no frame and no
reconnection) and stays quiescent. -/
theorem disconnect_cancels_all (s : WSState)
    (h : s.connectionOpen = true ∨
         (s.resendConfirmArmed = false ∧ s.periodicResubscribeArmed = false)) :
    ((disconnectInstance s).1.reconnectTimerArmed = false ∧
     (disconnectInstance s).1.resendConfirmArmed = false ∧
     (disconnectInstance s).1.periodicResubscribeArmed = false ∧
     (disconnectInstance s).1.adminSID = none ∧
     (disconnectInstance s).1.desiredSubscriptions = [] ∧
     (disconnectInstance s).1.connectionOpen = false ∧
     (disconnectInstance s).1.isAuthenticated = false) ∧
    (s.connectionOpen = true → Effect.closeSocket ∈ (disconnectInstance s).2) ∧
    (∀ f, Effect.sendFrame f ∉ (disconnectInstance s).2) ∧
    (∀ sid, Effect.connectWith sid ∉ (disconnectInstance s).2) ∧
    (∀ ms, Effect.scheduleDelay ms ∉ (disconnectInstance s).2) ∧
    Quiescent (disconnectInstance s).1 ∧
    (∀ (s1 : WSState) (e : Event), Quiescent s1 →
      (step s1 e).2 = [] ∧ Quiescent (step s1 e).1) := by
  obtain ⟨a, d, i, rt, ra, au, pa, rca, w, co, pt, pp⟩ := s
  simp only at h
  cases co with
  | true =>
    refine ⟨?_, ?_, ?_, ?_, ?_, ?_, quiescent_step⟩ <;>
      simp [disconnectInstance, closeConnection, onClosed, Quiescent]
  | false =>
    rcases h with h | ⟨hrc, hpr⟩
    · exact absurd h (by simp)
    · subst hrc hpr
      refine ⟨?_, ?_, ?_, ?_, ?_, ?_, quiescent_step⟩ <;>
        simp [disconnectInstance, closeConnection, onClosed, Quiescent]

/-- Witness for C3: disconnecting `sW3` cancels its timers, clears the
token and subscriptions, and sends nothing. -/
theorem disconnect_cancels_all_witness :
    sW3.connectionOpen = true ∧
    ((disconnectInstance sW3).1.reconnectTimerArmed = false ∧
     (disconnectInstance sW3).1.resendConfirmArmed = false ∧
     (disconnectInstance sW3).1.periodicResubscribeArmed = false ∧
     (disconnectInstance sW3).1.adminSID = none ∧
     (disconnectInstance sW3).1.desiredSubscriptions = [] ∧
     (disconnectInstance sW3).1.connectionOpen = false ∧
     (disconnectInstance sW3).1.isAuthenticated = false) ∧
    (∀ f, Effect.sendFrame f ∉ (disconnectInstance sW3).2) :=
  ⟨rfl, (disconnect_cancels_all sW3 (Or.inl rfl)).1,
   (disconnect_cancels_all sW3 (Or.inl rfl)).2.2.1⟩

lemma handleMessage_quote_effects (mkt : MarketState) (s : WSState)
    (qp : QuotePayload) :
    (handleMessage mkt s (.quote qp)).2 =
      (if s.isAuthenticated then [] else [Effect.notifyConnectionState true]) ++
      (match quotePricing mkt qp with
       | some (t, p) => [Effect.savePrice t p true, Effect.notifyPrice t p]
       | none => []) := by
  rcases hq : quotePricing mkt qp with _ | ⟨t, p⟩ <;>
    by_cases hau : s.isAuthenticated <;>
    simp [handleMessage, hq, hau]

lemma handleMessage_quote_disarms (mkt : MarketState) (s : WSState)
    (qp : QuotePayload) :
    (handleMessage mkt s (.quote qp)).1.resendConfirmArmed = false ∧
    (handleMessage mkt s (.quote qp)).1.waitingForResendResponse = false := by
  rcases hq : quotePricing mkt qp with _ | ⟨t, p⟩ <;>
    by_cases hau : s.isAuthenticated <;>
    simp [handleMessage, hq, hau]

lemma selectedRawPrice_some_has (mkt : MarketState) (qp : QuotePayload)
    (raw : Rat) (h : selectedRawPrice mkt qp = some raw) :
    (hasBbp qp || hasLtp qp) = true := by
  by_cases hb : hasBbp qp
  · simp [hb]
  · by_cases hl : hasLtp qp
    · simp [hl]
    · simp [selectedRawPrice, hb, hl] at h

/-- C4: an inbound quote frame whose payload carries a symbol and a
last-traded price but no positive best-bid selects a raw price exactly
when the market clock reports `open`; outside `open` the frame is not
priced — no cache write, no price-observer notification — yet it still
disarms the liveness watchdog. -/
theorem ltp_only_priced_iff_open (mkt : MarketState) (s : WSState)
    (qp : QuotePayload) (c : String) (l : Rat)
    (hc : qp.c = some c) ( _hcne : c ≠ "")
    (hltp : qp.ltp = some l) (hbbp : hasBbp qp = false) :
    ((selectedRawPrice mkt qp).isSome = true ↔ mkt = MarketState.«open») ∧
    (mkt ≠ MarketState.«open» →
      quotePricing mkt qp = none ∧
      (∀ sym p rt, Effect.savePrice sym p rt ∉ (handleMessage mkt s (.quote qp)).2) ∧
      (∀ sym p, Effect.notifyPrice sym p ∉ (handleMessage mkt s (.quote qp)).2)) ∧
    (handleMessage mkt s (.quote qp)).1.resendConfirmArmed = false ∧
    (handleMessage mkt s (.quote qp)).1.waitingForResendResponse = false := by
  have hl : hasLtp qp = true := by simp [hasLtp, hltp]
  have hsel : ∀ hmkt : mkt ≠ MarketState.«open»,
      selectedRawPrice mkt qp = none := by
    intro hmkt
    simp [selectedRawPrice, hbbp, hmkt]
  refine ⟨?_, ?_, handleMessage_quote_disarms mkt s qp⟩
  · by_cases hmkt : mkt = MarketState.«open»
    · simp [selectedRawPrice, hbbp, hl, hmkt, hltp]
    · simp [hsel hmkt, hmkt]
  · intro hmkt
    have hqp : quotePricing mkt qp = none := by
      simp [quotePricing, hc, hsel hmkt]
    refine ⟨hqp, ?_, ?_⟩ <;>
      · intros
        rw [handleMessage_quote_effects mkt s qp, hqp]
        by_cases hau : s.isAuthenticated <;> simp [hau]

/-- Witness for C4: `qOnlyLtp` outside regular hours is not priced but
still disarms the watchdog. -/
theorem ltp_only_priced_iff_open_witness :
    (qOnlyLtp.c = some "AAPL" ∧ "AAPL" ≠ "" ∧ qOnlyLtp.ltp = some 100 ∧
     hasBbp qOnlyLtp = false ∧ MarketState.closed ≠ MarketState.«open») ∧
    ((selectedRawPrice MarketState.closed qOnlyLtp).isSome = true ↔
      MarketState.closed = MarketState.«open») ∧
    quotePricing MarketState.closed qOnlyLtp = none ∧
    (handleMessage MarketState.closed sW2 (.quote qOnlyLtp)).1.resendConfirmArmed = false :=
  ⟨⟨rfl, by decide, rfl, rfl, by decide⟩,
   (ltp_only_priced_iff_open MarketState.closed sW2 qOnlyLtp "AAPL" 100
      rfl (by decide) rfl rfl).1,
   ((ltp_only_priced_iff_open MarketState.closed sW2 qOnlyLtp "AAPL" 100
      rfl (by decide) rfl rfl).2.1 (by decide)).1,
   (ltp_only_priced_iff_open MarketState.closed sW2 qOnlyLtp "AAPL" 100
      rfl (by decide) rfl rfl).2.2.1⟩

/-- C5: an inbound quote frame carrying a symbol and a positive
best-bid selects `bbp` as the raw price in every session phase, the
final price is `bbp * multiplier`, and whenever that price is positive
it is persisted to the price cache and delivered to the price
observers. -/
theorem bbp_priced_any_phase (mkt : MarketState) (s : WSState)
    (qp : QuotePayload) (c : String) (b : Rat)
    (hc : qp.c = some c) (hcne : c ≠ "")
    (hbbp : qp.bbp = some b) (hpos : 0 < b) :
    selectedRawPrice mkt qp = some b ∧
    quotePricing mkt qp =
      (if 0 < b * multiplierFor c qp.contract_multiplier
       then some (c, b * multiplierFor c qp.contract_multiplier)
       else none) ∧
    (0 < b * multiplierFor c qp.contract_multiplier →
      Effect.savePrice c (b * multiplierFor c qp.contract_multiplier) true ∈
        (handleMessage mkt s (.quote qp)).2 ∧
      Effect.notifyPrice c (b * multiplierFor c qp.contract_multiplier) ∈
        (handleMessage mkt s (.quote qp)).2) := by
  have hbb : hasBbp qp = true := by simp [hasBbp, hbbp, hpos]
  have hsel : selectedRawPrice mkt qp = some b := by
    simp [selectedRawPrice, hbb, hbbp]
  have hqp : quotePricing mkt qp =
      (if 0 < b * multiplierFor c qp.contract_multiplier
       then some (c, b * multiplierFor c qp.contract_multiplier)
       else none) := by
    simp [quotePricing, hc, hcne, hbb, hsel]
  refine ⟨hsel, hqp, ?_⟩
  intro hp
  rw [handleMessage_quote_effects mkt s qp, hqp, if_pos hp]
  by_cases hau : s.isAuthenticated <;> simp [hau]

/-- Witness for C5: a best-bid of 101 on a non-option symbol is priced
at 101 even while the market is closed, and persisted and delivered. -/
theorem bbp_priced_any_phase_witness :
    (qBbp.c = some "AAPL" ∧ "AAPL" ≠ "" ∧ qBbp.bbp = some 101 ∧
     (0 : Rat) < 101) ∧
    selectedRawPrice MarketState.closed qBbp = some 101 ∧
    (0 < (101 : Rat) * multiplierFor "AAPL" qBbp.contract_multiplier →
      Effect.savePrice "AAPL" (101 * multiplierFor "AAPL" qBbp.contract_multiplier) true ∈
        (handleMessage MarketState.closed sW2 (.quote qBbp)).2) :=
  ⟨⟨rfl, by decide, rfl, by norm_num⟩,
   (bbp_priced_any_phase MarketState.closed sW2 qBbp "AAPL" 101
      rfl (by decide) rfl (by norm_num)).1,
   fun hp => ((bbp_priced_any_phase MarketState.closed sW2 qBbp "AAPL" 101
      rfl (by decide) rfl (by norm_num)).2.2 hp).1⟩

/-- C6: for a priced quote frame, a symbol starting with the option
marker `+` applies `contract_multiplier` to the selected raw price
when present and 100 when absent, while every other symbol applies
multiplier 1 regardless of `contract_multiplier`. -/
theorem option_marker_multiplier (mkt : MarketState) (qp : QuotePayload)
    (c : String) (raw : Rat)
    (hc : qp.c = some c) (hcne : c ≠ "")
    (hraw : selectedRawPrice mkt qp = some raw) :
    (isOptionTicker c = true →
      (∀ cm, qp.contract_multiplier = some cm →
        quotePricing mkt qp =
          (if 0 < raw * cm then some (c, raw * cm) else none)) ∧
      (qp.contract_multiplier = none →
        quotePricing mkt qp =
          (if 0 < raw * 100 then some (c, raw * 100) else none))) ∧
    (isOptionTicker c = false →
      quotePricing mkt qp =
        (if 0 < raw * 1 then some (c, raw * 1) else none)) := by
  have hgu := selectedRawPrice_some_has mkt qp raw hraw
  have hqp : quotePricing mkt qp =
      (if 0 < raw * multiplierFor c qp.contract_multiplier
       then some (c, raw * multiplierFor c qp.contract_multiplier)
       else none) := by
    simp [quotePricing, hc, hcne, hgu, hraw]
  refine ⟨fun hopt => ⟨?_, ?_⟩, fun hopt => ?_⟩
  · intro cm hcm
    rw [hqp]
    simp [multiplierFor, hopt, hcm]
  · intro hcm
    rw [hqp]
    simp [multiplierFor, hopt, hcm]
  · rw [hqp]
    simp [multiplierFor, hopt]

/-- Witness for C6: the option symbol with no `contract_multiplier`
gets the default multiplier 100, pricing a best-bid of 2 at 200. -/
theorem option_marker_multiplier_witness :
    (qOption.c = some "+AAPL240C" ∧ "+AAPL240C" ≠ "" ∧
     selectedRawPrice MarketState.closed qOption = some 2 ∧
     isOptionTicker "+AAPL240C" = true ∧ qOption.contract_multiplier = none) ∧
    quotePricing MarketState.closed qOption =
      (if 0 < (2 : Rat) * 100 then some ("+AAPL240C", 2 * 100) else none) :=
  ⟨⟨rfl, by decide, by simp [selectedRawPrice, hasBbp, qOption], by decide, rfl⟩,
   ((option_marker_multiplier MarketState.closed qOption "+AAPL240C" 2
      rfl (by decide) (by simp [selectedRawPrice, hasBbp, qOption])).1
      (by decide)).2 rfl⟩

lemma mapPosition_instrument (p : RawPosition) :
    (decide ((mapPosition p).instrument ≠ "")) = strTruthy p.i := by
  rcases hp : p.i with _ | v <;> simp [mapPosition, strTruthy, hp]

lemma portfolio_filter_commute (pos : List RawPosition) :
    (pos.map mapPosition).filter (fun p => p.instrument ≠ "") =
      (pos.filter fun p => strTruthy p.i).map mapPosition := by
  induction pos with
  | nil => rfl
  | cons p ps ih =>
    simp only [List.map_cons, List.filter_cons, mapPosition_instrument]
    cases hp : strTruthy p.i
    · rw [if_neg (by simp [hp]), if_neg (by simp [hp])]
      exact ih
    · rw [if_pos (by simp [hp]), if_pos (by simp [hp]), List.map_cons, ih]

lemma portfolio_collect_some (p : RawPosition) (t : String) :
    ((match p.i with
      | some v => if v ≠ "" then some v else none
      | none => none) = some t) ↔ (p.i = some t ∧ t ≠ "") := by
  rcases hp : p.i with _ | v
  · simp [hp]
  · by_cases hv : v ≠ ""
    · simp only [hp, if_pos hv, Option.some.injEq]
      constructor
      · rintro rfl
        exact ⟨rfl, hv⟩
      · rintro ⟨h1, _⟩
        exact h1
    · simp [hp, hv]
      rintro rfl
      exact not_not.mp hv

/-- C7 (amended): every inbound portfolio frame drops the entries
missing an instrument identifier, replaces the position list wholesale
(the result does not depend on the previous state), and replaces the
derived symbol set with the deduplicated list of the entries'
instrument identifiers only — base-instrument identifiers are not
included. -/
theorem portfolio_wholesale_replacement (mkt : MarketState)
    (s s' : WSState) (pos : List RawPosition) :
    ((handleMessage mkt s (.portfolio (some pos))).1.portfolioPositions =
      (handleMessage mkt s' (.portfolio (some pos))).1.portfolioPositions) ∧
    ((handleMessage mkt s (.portfolio (some pos))).1.portfolioTickers =
      (handleMessage mkt s' (.portfolio (some pos))).1.portfolioTickers) ∧
    ((handleMessage mkt s (.portfolio (some pos))).1.portfolioPositions =
      (pos.filter fun p => strTruthy p.i).map mapPosition) ∧
    ((handleMessage mkt s (.portfolio (some pos))).1.portfolioTickers).Nodup ∧
    (∀ t, t ∈ (handleMessage mkt s (.portfolio (some pos))).1.portfolioTickers ↔
      ∃ p, p ∈ pos ∧ p.i = some t ∧ t ≠ "") := by
  refine ⟨by simp [handleMessage], by simp [handleMessage], ?_, ?_, ?_⟩
  · simp only [handleMessage]
    exact portfolio_filter_commute pos
  · simp only [handleMessage]
    exact nodup_dedupFirst _
  · intro t
    simp only [handleMessage, mem_dedupFirst, List.mem_filterMap]
    constructor
    · rintro ⟨p, hp, hcol⟩
      exact ⟨p, hp, (portfolio_collect_some p t).mp hcol⟩
    · rintro ⟨p, hp, hcol⟩
      exact ⟨p, hp, (portfolio_collect_some p t).mpr hcol⟩

/-- C7 counterexample: for an entry with instrument `AAPL` and base
contract code `BASE`, the replaced symbol set is `[AAPL]` — the
base-instrument identifier is not part of the derived symbol set, so
the set is not the union of instrument and base-instrument ids. -/
theorem portfolio_tickers_omit_base :
    (handleMessage MarketState.«open» initState
        (.portfolio (some [posBase]))).1.portfolioTickers = ["AAPL"] ∧
    "BASE" ∉ (handleMessage MarketState.«open» initState
        (.portfolio (some [posBase]))).1.portfolioTickers := by
  constructor <;>
    simp [handleMessage, posBase, dedupFirst]

/-- C9: whenever the credential exchange completes with an error field
or without a session token, `authenticateAndConnect` returns `false`,
leaves the supervisor state untouched, opens no socket and schedules
no reconnect. -/
theorem auth_failure_no_connect (s : WSState) (o : ExchangeOutcome)
    (h : (exchangeResult o).error.isSome = true ∨
         strTruthy (exchangeResult o).SID = false) :
    authenticateAndConnect s (exchangeResult o) = (false, s, []) := by
  cases o with
  | response SID error =>
    by_cases hsid : strTruthy SID = true
    · exfalso
      rcases h with h | h <;> simp [exchangeResult, hsid] at h
    · simp only [exchangeResult, hsid, if_neg]
      simp [authenticateAndConnect, strTruthy]
  | sessionNotInitialized =>
    simp [exchangeResult, authenticateAndConnect, strTruthy]
  | networkError =>
    simp [exchangeResult, authenticateAndConnect, strTruthy]
  | processingError =>
    simp [exchangeResult, authenticateAndConnect, strTruthy]

/-- Witness for C9, the spec's scenario: the exchange answers
`{error: "bad password"}` and `authenticateAndConnect` fails without
side effects. -/
theorem auth_failure_no_connect_witness :
    ((exchangeResult (.response none (some "bad password"))).error.isSome = true ∨
     strTruthy (exchangeResult (.response none (some "bad password"))).SID = false) ∧
    authenticateAndConnect sW2 (exchangeResult (.response none (some "bad password"))) =
      (false, sW2, []) :=
  ⟨Or.inl rfl,
   auth_failure_no_connect sW2 (.response none (some "bad password")) (Or.inl rfl)⟩

lemma sendQuotes_attempts (s : WSState) (subs : List String) :
    (sendQuotes s subs).1.reconnectAttempts = s.reconnectAttempts :=
  (sendQuotes_fields s subs).1

lemma scheduleReconnection_attempts (s : WSState) :
    (scheduleReconnection s).1.reconnectAttempts = s.reconnectAttempts ∨
    ((scheduleReconnection s).1.reconnectAttempts = s.reconnectAttempts + 1 ∧
     s.reconnectAttempts < maxReconnectAttempts) := by
  unfold scheduleReconnection
  split
  · exact Or.inl rfl
  · next h => exact Or.inr ⟨rfl, by omega⟩

lemma handleMessage_attempts (mkt : MarketState) (s : WSState) (m : Msg) :
    (handleMessage mkt s m).1.reconnectAttempts = s.reconnectAttempts ∨
    (handleMessage mkt s m).1.reconnectAttempts = 0 := by
  cases m with
  | userData mode =>
    by_cases hm : mode = "prod"
    · right
      simp [handleMessage, hm, sendQuotes_attempts]
    · left
      simp [handleMessage, hm]
  | quote qp =>
    left
    rcases hq : quotePricing mkt qp with _ | ⟨t, p⟩ <;>
      by_cases hau : s.isAuthenticated <;> simp [handleMessage, hq, hau]
  | portfolio pos =>
    left
    simp [handleMessage]
  | unrecognized =>
    left
    simp [handleMessage]

lemma onClosed_attempts (s : WSState) :
    (onClosed s).1.reconnectAttempts = s.reconnectAttempts ∨
    ((onClosed s).1.reconnectAttempts = s.reconnectAttempts + 1 ∧
     s.reconnectAttempts < maxReconnectAttempts) := by
  obtain ⟨a, d, i, rt, ra, au, pa, rca, w, co, pt, pp⟩ := s
  rcases a with _ | sid
  · left
    simp [onClosed]
  · cases i
    · by_cases hcap : maxReconnectAttempts ≤ ra
      · left
        simp [onClosed, scheduleReconnection, hcap]
      · right
        constructor
        · simp [onClosed, scheduleReconnection, hcap]
        · show ra < maxReconnectAttempts
          omega
    · left
      simp [onClosed]

lemma closeConnection_intentional_attempts (s : WSState)
    (h : s.isIntentionallyDisconnected = true) :
    (closeConnection s).1.reconnectAttempts = s.reconnectAttempts := by
  by_cases hco : s.connectionOpen = true <;>
    simp [closeConnection, onClosed, h, hco]

lemma forceReconnectNow_attempts (s : WSState) :
    (forceReconnectNow s).1.reconnectAttempts = s.reconnectAttempts := by
  obtain ⟨a, d, i, rt, ra, au, pa, rca, w, co, pt, pp⟩ := s
  rcases a with _ | sid
  · simp [forceReconnectNow]
  · cases co <;>
      simp [forceReconnectNow, closeConnection, onClosed, connectInstanceStart]

lemma resendConfirmFire_attempts (s : WSState) :
    (resendConfirmFire s).1.reconnectAttempts = s.reconnectAttempts := by
  unfold resendConfirmFire
  split
  · rcases hf : forceReconnectNow s with ⟨s1, effs⟩
    have h1 := forceReconnectNow_attempts s
    rw [hf] at h1
    simp [hf]
    exact h1
  · rfl

lemma step_attempts (s : WSState) (e : Event) :
    (step s e).1.reconnectAttempts = s.reconnectAttempts ∨
    (step s e).1.reconnectAttempts = 0 ∨
    ((step s e).1.reconnectAttempts = s.reconnectAttempts + 1 ∧
     s.reconnectAttempts < maxReconnectAttempts) := by
  cases e with
  | message mkt m =>
    by_cases hco : s.connectionOpen = true
    · rcases handleMessage_attempts mkt s m with h | h
      · left; simpa [step, hco] using h
      · right; left; simpa [step, hco] using h
    · left; simp [step, hco]
  | remoteClosed =>
    by_cases hco : s.connectionOpen = true
    · rcases onClosed_attempts s with h | h
      · left; simpa [step, hco] using h
      · right; right; simpa [step, hco] using h
    · left; simp [step, hco]
  | reconnectFire =>
    left
    by_cases hra : s.reconnectTimerArmed = true
    · rcases hsid : s.adminSID with _ | sid <;>
        by_cases hi : s.isIntentionallyDisconnected = true <;>
        simp [step, hra, reconnectTimerFire, hsid, hi, connectInstanceStart]
    · simp [step, hra]
  | watchdogFire =>
    left
    by_cases hra : s.resendConfirmArmed = true
    · simpa [step, hra] using resendConfirmFire_attempts s
    · simp [step, hra]
  | periodicFire =>
    left
    by_cases hp : s.periodicResubscribeArmed = true
    · simpa [step, hp, periodicResubscribeFire] using
        sendQuotes_attempts s s.desiredSubscriptions
    · simp [step, hp]
  | apiSubscribe tickers =>
    left
    by_cases hau : s.isAuthenticated = true <;>
      simp [step, subscribeToTickers, hau, sendQuotes_attempts]
  | apiDisconnect =>
    right; left
    rcases hcc : closeConnection
      { s with isIntentionallyDisconnected := true, isAuthenticated := false,
               reconnectTimerArmed := false } with ⟨s2, effs⟩
    simp [step, disconnectInstance, hcc]

/-- C10: the reconnect counter starts at zero and satisfies
`0 ≤ reconnectAttempts ≤ maxReconnectAttempts` in every reachable
state: `scheduleReconnection` (which increments only strictly below
the cap) and every reactor event — inbound frames, remote close, all
three timer firings, subscription changes and `disconnect()` (which
covers successful authentication and the watchdog force-cycle) —
preserve the bound. -/
theorem reconnect_counter_bounded :
    reconnectInv initState ∧
    (∀ s : WSState, reconnectInv s → reconnectInv (scheduleReconnection s).1) ∧
    (∀ (s : WSState) (e : Event), reconnectInv s → reconnectInv (step s e).1) := by
  refine ⟨⟨by decide, by decide⟩, ?_, ?_⟩
  · intro s hs
    obtain ⟨h0, h5⟩ := hs
    rcases scheduleReconnection_attempts s with h | ⟨h, hlt⟩
    · exact ⟨by rw [h]; exact h0, by rw [h]; exact h5⟩
    · exact ⟨by rw [h]; omega, by rw [h]; omega⟩
  · intro s e hs
    obtain ⟨h0, h5⟩ := hs
    have hM : (0 : Int) ≤ maxReconnectAttempts := by decide
    rcases step_attempts s e with h | h | ⟨h, hlt⟩
    · exact ⟨by rw [h]; exact h0, by rw [h]; exact h5⟩
    · exact ⟨by rw [h], by rw [h]; exact hM⟩
    · exact ⟨by rw [h]; omega, by rw [h]; omega⟩

/-- Witness for C10: the bound holds of a state with three attempts
and is preserved by an unintentional remote close. -/
theorem reconnect_counter_bounded_witness :
    reconnectInv sQuotePromo ∧ reconnectInv (step sQuotePromo .remoteClosed).1 :=
  ⟨⟨by decide, by decide⟩,
   reconnect_counter_bounded.2.2 sQuotePromo .remoteClosed ⟨by decide, by decide⟩⟩

end Freedom24
